import Mathlib

/-
  Verification of the headless-pm coordination backend (Python/FastAPI/SQLModel)
  against its natural-language specification.

  The relevant parts of the source are shallowly embedded here:
  - `src/src/models/enums.py` and `src/src/models/document_enums.py` become
    Lean inductive types with the exact member sets and raw string values;
  - `src/src/models/enum_translations.py`: its translation tables are embedded
    as the literal (member-name, label) pair lists written in the source,
    together with a resolver modelling Python attribute lookup at module load;
  - the entity rows (Agent, Task, Changelog, Document, Mention, Service) become
    Lean structures; the database session becomes an explicit `Db` record of
    row lists, and `datetime.utcnow()` becomes an explicit `now : Nat` argument;
  - `lock_task` / `update_task_status` from
    `src/src/services/task_management_service.py`,
    `create_document` / `update_document` from `src/src/api/document_routes.py`,
    `service_heartbeat` from `src/src/api/service_routes.py`, and
    `mark_mention_read` from `src/src/api/mention_routes.py` become functions
    `Db → ... → Except ApiError (Db × row)`.  A raised `HTTPException` is the
    `.error` case; since the exception is raised before `db.commit()`, the
    error case leaves the store unchanged (no `Db` is produced).

  Modelling notes, faithful to Python semantics:
  - Python truthiness on `Optional[int]` (`if task.locked_by_id:`) is
    `intOptTruthy`: `None` and `0` are falsy.  Row primary keys produced by the
    database are ≥ 1, so where a claim speaks of "non-null locked_by_id" the
    theorems carry the environment invariant that the stored id is nonzero.
  - Python truthiness on `Optional[str]` (`if request.notes:`) is
    `strOptTruthy`: `None` and `""` are falsy.
  - `update_document` tests `is not None`, i.e. plain `Option` matching.
  - `len(content)` counts code points, matching `String.length` on `Char`s.
  - The `content.encode('utf-8')` check in `create_document` cannot fail for a
    value representable as a Lean `String` (Lean strings are valid Unicode), so
    it is modelled as always passing.
  - `update_task_status` additionally runs next-task selection
    (`get_next_task_for_agent`, outside the claims) after the commit; that step
    reads other rows and does not modify the updated task, its lock fields, or
    the changelog, so the embedding returns the committed state directly.
-/

namespace HeadlessPm

/-! ## Domain enumerations (src/src/models/enums.py, document_enums.py) -/

inductive TaskStatus
  | created
  | under_work
  | dev_done
  | qa_done
  | documentation_done
  | committed
  | evaluation
  | approved
deriving DecidableEq

def TaskStatus.value : TaskStatus → String
  | .created => "created"
  | .under_work => "under_work"
  | .dev_done => "dev_done"
  | .qa_done => "qa_done"
  | .documentation_done => "documentation_done"
  | .committed => "committed"
  | .evaluation => "evaluation"
  | .approved => "approved"

inductive AgentRole
  | frontend_dev
  | backend_dev
  | qa
  | architect
  | pm
deriving DecidableEq

def AgentRole.value : AgentRole → String
  | .frontend_dev => "frontend_dev"
  | .backend_dev => "backend_dev"
  | .qa => "qa"
  | .architect => "architect"
  | .pm => "pm"

inductive DifficultyLevel
  | junior
  | senior
  | principal
deriving DecidableEq

def DifficultyLevel.value : DifficultyLevel → String
  | .junior => "junior"
  | .senior => "senior"
  | .principal => "principal"

inductive TaskComplexity
  | minor
  | major
deriving DecidableEq

def TaskComplexity.value : TaskComplexity → String
  | .minor => "minor"
  | .major => "major"

inductive ConnectionType
  | mcp
  | client
deriving DecidableEq

def ConnectionType.value : ConnectionType → String
  | .mcp => "mcp"
  | .client => "client"

inductive TaskType
  | regular
  | waiting
deriving DecidableEq

def TaskType.value : TaskType → String
  | .regular => "regular"
  | .waiting => "waiting"

/-- `DocumentType` as defined in src/src/models/document_enums.py: exactly the
four members STANDUP, CRITICAL_ISSUE, SERVICE_STATUS, UPDATE. -/
inductive DocumentType
  | standup
  | critical_issue
  | service_status
  | update
deriving DecidableEq

def DocumentType.value : DocumentType → String
  | .standup => "standup"
  | .critical_issue => "critical_issue"
  | .service_status => "service_status"
  | .update => "update"

/-- `ServiceStatus` as defined in src/src/models/document_enums.py: exactly the
three members UP, DOWN, STARTING. -/
inductive ServiceStatus
  | up
  | down
  | starting
deriving DecidableEq

def ServiceStatus.value : ServiceStatus → String
  | .up => "up"
  | .down => "down"
  | .starting => "starting"

/-! ## Error model

A raised `HTTPException(status_code=...)` from the embedded routes/services. -/

inductive ApiError
  | notFound
  | conflict
  | forbidden
  | invalidInput
deriving DecidableEq

def ApiError.statusCode : ApiError → Nat
  | .notFound => 404
  | .conflict => 409
  | .forbidden => 403
  | .invalidInput => 400

/-! ## Entity rows (data model) -/

structure Agent where
  id : Nat
  agent_id : String
  role : AgentRole
  level : DifficultyLevel
  connection_type : ConnectionType
  last_seen : Nat
deriving DecidableEq

structure Task where
  id : Nat
  feature_id : Nat
  title : String
  description : String
  created_by_id : Nat
  target_role : AgentRole
  difficulty : DifficultyLevel
  complexity : TaskComplexity
  branch : String
  status : TaskStatus
  locked_by_id : Option Nat
  locked_at : Option Nat
  notes : Option String
  created_at : Nat
  updated_at : Nat
deriving DecidableEq

structure Changelog where
  task_id : Nat
  old_status : TaskStatus
  new_status : TaskStatus
  changed_by : String
  notes : Option String
  changed_at : Nat
deriving DecidableEq

structure Document where
  id : Nat
  doc_type : DocumentType
  author_id : String
  title : String
  content : String
  meta_data : Option String
  expires_at : Option Nat
  created_at : Nat
  updated_at : Nat
deriving DecidableEq

structure Mention where
  id : Nat
  document_id : Option Nat
  task_id : Option Nat
  mentioned_agent_id : String
  created_by : String
  is_read : Bool
  created_at : Nat
deriving DecidableEq

structure Service where
  id : Nat
  service_name : String
  owner_agent_id : String
  ping_url : String
  port : Option Nat
  status : ServiceStatus
  last_heartbeat : Option Nat
  meta_data : Option String
  updated_at : Nat
deriving DecidableEq

/-- The relational store: one list of rows per entity table. -/
structure Db where
  agents : List Agent
  tasks : List Task
  changelogs : List Changelog
  documents : List Document
  mentions : List Mention
  services : List Service
deriving DecidableEq

/-! ## Session helpers -/

/-- `db.get(Task, task_id)`: primary-key lookup. -/
def dbGetTask (db : Db) (task_id : Nat) : Option Task :=
  db.tasks.find? (fun t => t.id == task_id)

/-- `db.exec(select(Agent).where(Agent.agent_id == agent_id)).first()`. -/
def findAgent (db : Db) (agent_id : String) : Option Agent :=
  db.agents.find? (fun a => a.agent_id == agent_id)

/-- `db.get(Document, document_id)`. -/
def dbGetDocument (db : Db) (document_id : Nat) : Option Document :=
  db.documents.find? (fun d => d.id == document_id)

/-- `db.get(Mention, mention_id)`. -/
def dbGetMention (db : Db) (mention_id : Nat) : Option Mention :=
  db.mentions.find? (fun m => m.id == mention_id)

/-- `db.exec(select(Service).where(Service.service_name == name)).first()`. -/
def findService (db : Db) (service_name : String) : Option Service :=
  db.services.find? (fun s => s.service_name == service_name)

/-- Committing a mutated row fetched by primary key: the stored row with that
key is overwritten in place. -/
def replaceTask (l : List Task) (t : Task) : List Task :=
  l.map (fun x => if x.id == t.id then t else x)

def replaceDocument (l : List Document) (d : Document) : List Document :=
  l.map (fun x => if x.id == d.id then d else x)

def replaceMention (l : List Mention) (m : Mention) : List Mention :=
  l.map (fun x => if x.id == m.id then m else x)

def replaceService (l : List Service) (s : Service) : List Service :=
  l.map (fun x => if x.id == s.id then s else x)

/-- Python truthiness of an `Optional[int]`: `None` and `0` are falsy. -/
def intOptTruthy : Option Nat → Bool
  | none => false
  | some n => n != 0

/-- Python truthiness of an `Optional[str]`: `None` and `""` are falsy. -/
def strOptTruthy : Option String → Bool
  | none => false
  | some s => !s.isEmpty

/-! ## Task operations (src/src/services/task_management_service.py) -/

/-- `lock_task(task_id, agent_id, db)`, lines 131-192:
task lookup (404) → already-locked check (409) → agent lookup (404) →
set `locked_by_id`/`locked_at` and commit. -/
def lockedVersion (t : Task) (agentRowId now : Nat) : Task :=
  { t with locked_by_id := some agentRowId, locked_at := some now }

def lock_task (db : Db) (task_id : Nat) (agent_id : String) (now : Nat) :
    Except ApiError (Db × Task) :=
  match dbGetTask db task_id with
  | none => .error .notFound
  | some task =>
    if intOptTruthy task.locked_by_id then .error .conflict
    else
      match findAgent db agent_id with
      | none => .error .notFound
      | some agent =>
        let locked := lockedVersion task agent.id now
        .ok ({ db with tasks := replaceTask db.tasks locked }, locked)

/-- The in-place mutation of the task row performed by `update_task_status`
(lines 233-247): apply the new status, stamp `updated_at`, overwrite `notes`
when the request's notes are truthy, and clear the lock when moving away from
`under_work`. -/
def applyStatusUpdate (t : Task) (s : TaskStatus) (reqNotes : Option String)
    (now : Nat) : Task :=
  let t1 := { t with status := s, updated_at := now }
  let t2 := if strOptTruthy reqNotes then { t1 with notes := reqNotes } else t1
  if t.status = TaskStatus.under_work ∧ s ≠ TaskStatus.under_work then
    { t2 with locked_by_id := none, locked_at := none }
  else t2

/-- `update_task_status(task_id, request, agent_id, db)`, lines 195-305 (the
committed state; the post-commit next-task convenience query does not touch
these rows): task lookup (404) → agent lookup (404) → mutate the task row via
`applyStatusUpdate` → append one `Changelog` row → commit. -/
def update_task_status (db : Db) (task_id : Nat) (reqStatus : TaskStatus)
    (reqNotes : Option String) (agent_id : String) (now : Nat) :
    Except ApiError (Db × Task) :=
  match dbGetTask db task_id with
  | none => .error .notFound
  | some task =>
    match findAgent db agent_id with
    | none => .error .notFound
    | some _agent =>
      let updated := applyStatusUpdate task reqStatus reqNotes now
      let row : Changelog :=
        { task_id := task.id
          old_status := task.status
          new_status := reqStatus
          changed_by := agent_id
          notes := reqNotes
          changed_at := now }
      .ok ({ db with
              tasks := replaceTask db.tasks updated
              changelogs := db.changelogs ++ [row] }, updated)

/-! ## Result projections (for stating claims without existentials) -/

def resultTask : Except ApiError (Db × Task) → Option Task
  | .ok (_, t) => some t
  | .error _ => none

def resultTaskDb : Except ApiError (Db × Task) → Option Db
  | .ok (db, _) => some db
  | .error _ => none

def resultChangelogs (e : Except ApiError (Db × Task)) : Option (List Changelog) :=
  (resultTaskDb e).map Db.changelogs

/-! ## Document operations (src/src/api/document_routes.py)

Mention extraction (`create_mentions_for_document`, from
`src/services/mention_service.py`) only adds/removes `Mention` rows for the
document and returns the extracted list; the claims about these two routes
concern only the `Document` row and the length check, so the mention side
effect is irrelevant to them and the embedding covers the document table. -/

/-- Next autoincrement primary key for the documents table. -/
def nextDocumentId (db : Db) : Nat :=
  db.documents.foldl (fun acc d => Nat.max acc d.id) 0 + 1

/-- The row inserted by `create_document` when validation passes. -/
def newDocument (db : Db) (doc_type : DocumentType) (author_id title content : String)
    (meta_data : Option String) (expires_at : Option Nat) (now : Nat) : Document :=
  { id := nextDocumentId db
    doc_type := doc_type
    author_id := author_id
    title := title
    content := content
    meta_data := meta_data
    expires_at := expires_at
    created_at := now
    updated_at := now }

/-- `create_document` (POST /api/v1/documents), lines 17-88: the length check
`len(request.content) > 50000` raises 400 before any row is constructed or
added to the session; the UTF-8 encode check cannot fail on a Lean `String`;
otherwise the document row is inserted and committed. -/
def create_document (db : Db) (doc_type : DocumentType)
    (title content : String) (meta_data : Option String) (expires_at : Option Nat)
    (author_id : String) (now : Nat) : Except ApiError (Db × Document) :=
  if content.length > 50000 then .error .invalidInput
  else
    let doc := newDocument db doc_type author_id title content meta_data expires_at now
    .ok ({ db with documents := db.documents ++ [doc] }, doc)

/-- The in-place mutation of the document row performed by `update_document`
(lines 173-192): each of title/content/meta_data is overwritten exactly when
the request supplies it (`is not None`), and `updated_at` is always stamped.
No length check appears anywhere on this path. -/
def applyDocumentUpdate (d : Document) (reqTitle reqContent reqMeta : Option String)
    (now : Nat) : Document :=
  let d1 := match reqTitle with
    | some t => { d with title := t }
    | none => d
  let d2 := match reqContent with
    | some c => { d1 with content := c }
    | none => d1
  let d3 := match reqMeta with
    | some m => { d2 with meta_data := some m }
    | none => d2
  { d3 with updated_at := now }

/-- The special case of `applyDocumentUpdate` exercised by the content-only
update: replace the content and stamp `updated_at`. -/
def contentVersion (d : Document) (content : String) (now : Nat) : Document :=
  { d with content := content, updated_at := now }

/-- `update_document` (PUT /api/v1/documents/id), lines 161-214: document
lookup (404) → partial field overwrite → commit.  (When content is supplied the
route also discards and re-extracts the document's mentions; that touches only
`Mention` rows.) -/
def update_document (db : Db) (document_id : Nat)
    (reqTitle reqContent reqMeta : Option String) (now : Nat) :
    Except ApiError (Db × Document) :=
  match dbGetDocument db document_id with
  | none => .error .notFound
  | some doc =>
    let updated := applyDocumentUpdate doc reqTitle reqContent reqMeta now
    .ok ({ db with documents := replaceDocument db.documents updated }, updated)

/-! ## Service operations (src/src/api/service_routes.py) -/

/-- The in-place mutation of the service row performed by the heartbeat
(lines 80-86): stamp `last_heartbeat`/`updated_at`, then force `status` to `up`
when it is anything else. -/
def heartbeatVersion (s : Service) (now : Nat) : Service :=
  let s1 := { s with last_heartbeat := some now, updated_at := now }
  if s1.status ≠ ServiceStatus.up then { s1 with status := ServiceStatus.up } else s1

/-- `service_heartbeat` (POST /api/v1/services/name/heartbeat), lines 61-92:
service lookup (404) → ownership check (403, raised before any field is
touched) → stamp `last_heartbeat`/`updated_at` → force status to `up` when it
is anything else → commit. -/
def service_heartbeat (db : Db) (service_name agent_id : String) (now : Nat) :
    Except ApiError (Db × Service) :=
  match findService db service_name with
  | none => .error .notFound
  | some service =>
    if service.owner_agent_id ≠ agent_id then .error .forbidden
    else
      let s2 := heartbeatVersion service now
      .ok ({ db with services := replaceService db.services s2 }, s2)

/-! ## Mention operations (src/src/api/mention_routes.py) -/

/-- The in-place mutation `mention.is_read = True` (line 137). -/
def readVersion (m : Mention) : Mention :=
  { m with is_read := true }

/-- `mark_mention_read` (PUT /api/v1/mentions/id/read), lines 121-162: mention
lookup (404) → `mentioned_agent_id` ownership check (403, raised before any
field is touched) → set `is_read = True` → commit. -/
def mark_mention_read (db : Db) (mention_id : Nat) (agent_id : String) :
    Except ApiError (Db × Mention) :=
  match dbGetMention db mention_id with
  | none => .error .notFound
  | some mention =>
    if mention.mentioned_agent_id ≠ agent_id then .error .forbidden
    else
      let m := readVersion mention
      .ok ({ db with mentions := replaceMention db.mentions m }, m)

/-! ## Localized labels (src/src/models/enum_translations.py)

The source builds eight dict literals whose keys are written as attribute
accesses `EnumClass.MEMBER_NAME`.  At module load Python evaluates each access;
a name that is not a member of the class raises `AttributeError` and aborts the
import.  The embedding keeps each table as the literal list of
(member name, label) pairs exactly as written in the source, plus a per-enum
attribute-lookup function, and `buildEnumTable` models the dict construction:
it succeeds only if every referenced name is a member. -/

def TaskStatus.fromName : String → Option TaskStatus
  | "CREATED" => some .created
  | "UNDER_WORK" => some .under_work
  | "DEV_DONE" => some .dev_done
  | "QA_DONE" => some .qa_done
  | "DOCUMENTATION_DONE" => some .documentation_done
  | "COMMITTED" => some .committed
  | "EVALUATION" => some .evaluation
  | "APPROVED" => some .approved
  | _ => none

def AgentRole.fromName : String → Option AgentRole
  | "FRONTEND_DEV" => some .frontend_dev
  | "BACKEND_DEV" => some .backend_dev
  | "QA" => some .qa
  | "ARCHITECT" => some .architect
  | "PM" => some .pm
  | _ => none

def DifficultyLevel.fromName : String → Option DifficultyLevel
  | "JUNIOR" => some .junior
  | "SENIOR" => some .senior
  | "PRINCIPAL" => some .principal
  | _ => none

def TaskComplexity.fromName : String → Option TaskComplexity
  | "MINOR" => some .minor
  | "MAJOR" => some .major
  | _ => none

def ConnectionType.fromName : String → Option ConnectionType
  | "MCP" => some .mcp
  | "CLIENT" => some .client
  | _ => none

def TaskType.fromName : String → Option TaskType
  | "REGULAR" => some .regular
  | "WAITING" => some .waiting
  | _ => none

def DocumentType.fromName : String → Option DocumentType
  | "STANDUP" => some .standup
  | "CRITICAL_ISSUE" => some .critical_issue
  | "SERVICE_STATUS" => some .service_status
  | "UPDATE" => some .update
  | _ => none

def ServiceStatus.fromName : String → Option ServiceStatus
  | "UP" => some .up
  | "DOWN" => some .down
  | "STARTING" => some .starting
  | _ => none

/-- Evaluate a dict literal whose keys are attribute accesses: resolve each
referenced member name, propagating failure (Python's `AttributeError` at
import). -/
def buildEnumTable {α : Type} (fromName : String → Option α)
    (entries : List (String × String)) : Option (List (α × String)) :=
  entries.mapM (fun e => (fromName e.1).map (fun v => (v, e.2)))

/-- The `TASK_STATUS_CN` literal, lines 9-18. -/
def taskStatusCnSource : List (String × String) :=
  [("CREATED", "已创建"), ("UNDER_WORK", "进行中"), ("DEV_DONE", "开发完成"),
   ("QA_DONE", "测试完成"), ("DOCUMENTATION_DONE", "文档完成"),
   ("COMMITTED", "已提交"), ("EVALUATION", "评估中"), ("APPROVED", "已批准")]

/-- The `AGENT_ROLE_CN` literal, lines 21-27. -/
def agentRoleCnSource : List (String × String) :=
  [("FRONTEND_DEV", "前端开发"), ("BACKEND_DEV", "后端开发"), ("QA", "质量保证"),
   ("ARCHITECT", "架构师"), ("PM", "项目经理")]

/-- The `DIFFICULTY_LEVEL_CN` literal, lines 30-34. -/
def difficultyLevelCnSource : List (String × String) :=
  [("JUNIOR", "初级"), ("SENIOR", "高级"), ("PRINCIPAL", "首席")]

/-- The `TASK_COMPLEXITY_CN` literal, lines 37-40. -/
def taskComplexityCnSource : List (String × String) :=
  [("MINOR", "次要"), ("MAJOR", "主要")]

/-- The `CONNECTION_TYPE_CN` literal, lines 43-46. -/
def connectionTypeCnSource : List (String × String) :=
  [("MCP", "MCP协议"), ("CLIENT", "客户端")]

/-- The `TASK_TYPE_CN` literal, lines 49-52. -/
def taskTypeCnSource : List (String × String) :=
  [("REGULAR", "常规"), ("WAITING", "等待中")]

/-- The `DOCUMENT_TYPE_CN` literal, lines 55-80, exactly the member names
written in the source (most of which `DocumentType` in document_enums.py does
not define). -/
def documentTypeCnSource : List (String × String) :=
  [("STANDUP", "每日站会"), ("UPDATE", "更新"), ("OBSERVATION", "观察"),
   ("ISSUE", "问题"), ("DECISION", "决策"), ("RETROSPECTIVE", "回顾"),
   ("PROPOSAL", "提案"), ("ANNOUNCEMENT", "公告"), ("RESEARCH", "研究"),
   ("TUTORIAL", "教程"), ("CRITICAL_ISSUE", "关键问题"),
   ("PERFORMANCE_ISSUE", "性能问题"), ("USER_STORY", "用户故事"),
   ("TEST_RESULT", "测试结果"), ("METRICS", "指标"), ("GUIDELINES", "指南"),
   ("EXPERIMENT", "实验"), ("SUMMARY", "总结"), ("REPORT", "报告"),
   ("CHANGELOG", "更新日志"), ("WORKFLOW", "工作流"), ("DISCUSSION", "讨论"),
   ("REVIEW", "审查"), ("DIAGRAM", "图表")]

/-- The `SERVICE_STATUS_CN` literal, lines 83-88 (DEGRADED and MAINTENANCE are
not members of `ServiceStatus` in document_enums.py). -/
def serviceStatusCnSource : List (String × String) :=
  [("UP", "正常"), ("DOWN", "停机"), ("DEGRADED", "降级"), ("MAINTENANCE", "维护中")]

/-- Loading the translation module = building all eight tables in file order;
the first unresolvable member name aborts the import. -/
def loadEnumTranslationsModule : Option Unit := do
  let _ ← buildEnumTable TaskStatus.fromName taskStatusCnSource
  let _ ← buildEnumTable AgentRole.fromName agentRoleCnSource
  let _ ← buildEnumTable DifficultyLevel.fromName difficultyLevelCnSource
  let _ ← buildEnumTable TaskComplexity.fromName taskComplexityCnSource
  let _ ← buildEnumTable ConnectionType.fromName connectionTypeCnSource
  let _ ← buildEnumTable TaskType.fromName taskTypeCnSource
  let _ ← buildEnumTable DocumentType.fromName documentTypeCnSource
  let _ ← buildEnumTable ServiceStatus.fromName serviceStatusCnSource
  pure ()

/-- `dict.get(key, default)` over an embedded table. -/
def tableGet {α : Type} [DecidableEq α] (table : List (α × String)) (k : α)
    (dflt : String) : String :=
  match table.find? (fun e => e.1 = k) with
  | some e => e.2
  | none => dflt

/-- The argument of `get_enum_description`: one value of any of the eight
enumerations (Python dispatches on `isinstance`). -/
inductive EnumValue
  | taskStatus (v : TaskStatus)
  | agentRole (v : AgentRole)
  | difficultyLevel (v : DifficultyLevel)
  | taskComplexity (v : TaskComplexity)
  | connectionType (v : ConnectionType)
  | taskType (v : TaskType)
  | documentType (v : DocumentType)
  | serviceStatus (v : ServiceStatus)
deriving DecidableEq

def EnumValue.value : EnumValue → String
  | .taskStatus v => v.value
  | .agentRole v => v.value
  | .difficultyLevel v => v.value
  | .taskComplexity v => v.value
  | .connectionType v => v.value
  | .taskType v => v.value
  | .documentType v => v.value
  | .serviceStatus v => v.value

/-- `get_enum_description(enum_value)`, lines 90-110, as it would run over
given (successfully built) tables: `TABLE.get(enum_value, enum_value.value)`
per runtime type.  In the source this function is unreachable because the
module's own table construction fails (see the C8 theorem). -/
def get_enum_description
    (taskStatusCn : List (TaskStatus × String))
    (agentRoleCn : List (AgentRole × String))
    (difficultyLevelCn : List (DifficultyLevel × String))
    (taskComplexityCn : List (TaskComplexity × String))
    (connectionTypeCn : List (ConnectionType × String))
    (taskTypeCn : List (TaskType × String))
    (documentTypeCn : List (DocumentType × String))
    (serviceStatusCn : List (ServiceStatus × String)) :
    EnumValue → String
  | .taskStatus v => tableGet taskStatusCn v v.value
  | .agentRole v => tableGet agentRoleCn v v.value
  | .difficultyLevel v => tableGet difficultyLevelCn v v.value
  | .taskComplexity v => tableGet taskComplexityCn v v.value
  | .connectionType v => tableGet connectionTypeCn v v.value
  | .taskType v => tableGet taskTypeCn v v.value
  | .documentType v => tableGet documentTypeCn v v.value
  | .serviceStatus v => tableGet serviceStatusCn v v.value

/-! ## Helper lemmas -/

/-- Committing a row fetched by key: if a row with the key was found, the
lookup after the in-place overwrite returns the new row. -/
theorem find?_map_replace {α : Type} (key : α → Nat) (x2 : α) :
    ∀ (l : List α) (x : α),
      l.find? (fun y => key y == key x2) = some x →
      (l.map (fun y => if key y == key x2 then x2 else y)).find?
          (fun y => key y == key x2) = some x2 := by
  intro l
  induction l with
  | nil => intro x h; simp [List.find?] at h
  | cons a rest ih =>
    intro x h
    by_cases hc : (key a == key x2) = true
    · simp only [List.map_cons, if_pos hc]
      exact List.find?_cons_of_pos _ (by simp)
    · simp only [List.map_cons, if_neg hc]
      rw [List.find?_cons_of_neg _ (by simpa using hc)]
      rw [List.find?_cons_of_neg _ (by simpa using hc)] at h
      exact ih x h

/-- Overwriting the same row twice is the same as overwriting it once. -/
theorem map_replace_idem {α : Type} (key : α → Nat) (x2 : α) (l : List α) :
    (l.map (fun y => if key y == key x2 then x2 else y)).map
        (fun y => if key y == key x2 then x2 else y)
      = l.map (fun y => if key y == key x2 then x2 else y) := by
  rw [List.map_map]
  apply List.map_congr_left
  intro y _
  by_cases hc : (key y == key x2) = true
  · simp [Function.comp, hc]
  · simp [Function.comp, hc]

/-- The status-update mutation never changes the task's primary key. -/
theorem applyStatusUpdate_id (t : Task) (s : TaskStatus) (n : Option String)
    (now : Nat) : (applyStatusUpdate t s n now).id = t.id := by
  unfold applyStatusUpdate
  split <;> split <;> rfl

/-- The status-update mutation does not touch the notes field beyond the
request-notes overwrite. -/
theorem applyStatusUpdate_notes (t : Task) (s : TaskStatus) (n : Option String)
    (now : Nat) :
    (applyStatusUpdate t s n now).notes = (if strOptTruthy n then n else t.notes) := by
  unfold applyStatusUpdate
  split <;> split <;> simp_all

/-- Character-level prefix test: `startsWithChars p s` holds exactly when `s`
is `p` followed by anything, i.e. when the content `p` was preserved at the
front and more content appended after it. -/
def startsWithChars : List Char → List Char → Bool
  | [], _ => true
  | _ :: _, [] => false
  | a :: as, b :: bs => a == b && startsWithChars as bs

def stringStartsWith (p s : String) : Bool :=
  startsWithChars p.data s.data

theorem startsWithChars_append (a b : List Char) :
    startsWithChars a (a ++ b) = true := by
  induction a with
  | nil => rfl
  | cons c cs ih => simp [startsWithChars, ih]

/-- Appending anything onto a string keeps the original as a prefix; so a
notes field built by appending onto the prior notes must satisfy
`stringStartsWith prior result`. -/
theorem stringStartsWith_append (a b : String) :
    stringStartsWith a (a ++ b) = true := by
  have : (a ++ b).data = a.data ++ b.data := rfl
  simp [stringStartsWith, this, startsWithChars_append]

instance {ε α : Type} [DecidableEq ε] [DecidableEq α] : DecidableEq (Except ε α) :=
  fun x y =>
  match x, y with
  | .error a, .error b =>
    if h : a = b then isTrue (congrArg Except.error h)
    else isFalse (fun hc => h (by injection hc))
  | .error _, .ok _ => isFalse (fun hc => by injection hc)
  | .ok _, .error _ => isFalse (fun hc => by injection hc)
  | .ok a, .ok b =>
    if h : a = b then isTrue (congrArg Except.ok h)
    else isFalse (fun hc => h (by injection hc))

/-- A primary-key lookup that succeeds returns a row carrying that key. -/
theorem dbGetTask_key (db : Db) (tid : Nat) (t : Task)
    (h : dbGetTask db tid = some t) : t.id = tid := by
  unfold dbGetTask at h
  have hp := List.find?_some h
  simpa using hp

theorem dbGetDocument_key (db : Db) (did : Nat) (d : Document)
    (h : dbGetDocument db did = some d) : d.id = did := by
  unfold dbGetDocument at h
  have hp := List.find?_some h
  simpa using hp

theorem dbGetMention_key (db : Db) (mid : Nat) (m : Mention)
    (h : dbGetMention db mid = some m) : m.id = mid := by
  unfold dbGetMention at h
  have hp := List.find?_some h
  simpa using hp

/-- After committing a mutated task row, looking the task up again returns the
mutated row. -/
theorem replaceTask_find? (l : List Task) (tid : Nat) (t u : Task)
    (hfind : l.find? (fun y => y.id == tid) = some t) (hid : u.id = tid) :
    (replaceTask l u).find? (fun y => y.id == tid) = some u := by
  subst hid
  unfold replaceTask
  exact find?_map_replace Task.id u l t hfind

theorem replaceMention_find? (l : List Mention) (mid : Nat) (m u : Mention)
    (hfind : l.find? (fun y => y.id == mid) = some m) (hid : u.id = mid) :
    (replaceMention l u).find? (fun y => y.id == mid) = some u := by
  subst hid
  unfold replaceMention
  exact find?_map_replace Mention.id u l m hfind

/-- Leaving `under_work` clears both lock fields in the mutated row. -/
theorem applyStatusUpdate_clears_lock (t : Task) (s : TaskStatus)
    (n : Option String) (now : Nat)
    (hstatus : t.status = TaskStatus.under_work)
    (hnew : s ≠ TaskStatus.under_work) :
    (applyStatusUpdate t s n now).locked_by_id = none
    ∧ (applyStatusUpdate t s n now).locked_at = none := by
  simp only [applyStatusUpdate]
  rw [if_pos ⟨hstatus, hnew⟩]
  exact ⟨rfl, rfl⟩

/-- The one-step reduction of a successful `update_task_status`: both lookups
succeed, so the call commits the mutated task row plus one changelog row. -/
theorem update_task_status_ok
    (db : Db) (tid : Nat) (s : TaskStatus) (reqNotes : Option String)
    (aid : String) (now : Nat) (t : Task) (a : Agent)
    (htask : dbGetTask db tid = some t)
    (hagent : findAgent db aid = some a) :
    update_task_status db tid s reqNotes aid now =
      .ok ({ db with
              tasks := replaceTask db.tasks (applyStatusUpdate t s reqNotes now),
              changelogs := db.changelogs ++
                [{ task_id := t.id, old_status := t.status, new_status := s,
                   changed_by := aid, notes := reqNotes, changed_at := now }] },
            applyStatusUpdate t s reqNotes now) := by
  unfold update_task_status
  rw [htask, hagent]

/-! ## Sample rows used by witnesses and counterexamples -/

def agentA1 : Agent :=
  { id := 1, agent_id := "a1", role := .backend_dev, level := .senior,
    connection_type := .client, last_seen := 0 }

def agentA2 : Agent :=
  { id := 2, agent_id := "a2", role := .qa, level := .senior,
    connection_type := .client, last_seen := 0 }

/-- A task that is `under_work` and locked by agent 1 ("a1"). -/
def lockedTask : Task :=
  { id := 1, feature_id := 1, title := "t1", description := "d",
    created_by_id := 1, target_role := .backend_dev, difficulty := .senior,
    complexity := .major, branch := "main", status := .under_work,
    locked_by_id := some 1, locked_at := some 2, notes := some "old",
    created_at := 0, updated_at := 0 }

/-- A `created`, unlocked task. -/
def freshTask : Task :=
  { id := 4, feature_id := 1, title := "t4", description := "d",
    created_by_id := 1, target_role := .backend_dev, difficulty := .senior,
    complexity := .major, branch := "main", status := .created,
    locked_by_id := none, locked_at := none, notes := none,
    created_at := 0, updated_at := 0 }

def dbTasks : Db :=
  { agents := [agentA1, agentA2], tasks := [lockedTask, freshTask],
    changelogs := [], documents := [], mentions := [], services := [] }

/-! ## Claim theorems -/

/-- C1: for every task whose current status is `under_work`, a status update to
any value other than `under_work` (performed by any registered agent — not
necessarily the lock holder, whom nothing in the code consults) results in
`locked_by_id = none` and `locked_at = none`, both on the returned task and in
the stored task table. -/
theorem C1_leaving_under_work_clears_lock
    (db : Db) (tid : Nat) (s : TaskStatus) (reqNotes : Option String)
    (aid : String) (now : Nat) (t : Task) (a : Agent)
    (htask : dbGetTask db tid = some t)
    (hagent : findAgent db aid = some a)
    (hstatus : t.status = TaskStatus.under_work)
    (hnew : s ≠ TaskStatus.under_work) :
    resultTask (update_task_status db tid s reqNotes aid now)
        = some (applyStatusUpdate t s reqNotes now)
    ∧ (applyStatusUpdate t s reqNotes now).locked_by_id = none
    ∧ (applyStatusUpdate t s reqNotes now).locked_at = none
    ∧ (resultTaskDb (update_task_status db tid s reqNotes aid now)).map
        (fun db2 => dbGetTask db2 tid)
        = some (some (applyStatusUpdate t s reqNotes now)) := by
  obtain ⟨h1, h2⟩ := applyStatusUpdate_clears_lock t s reqNotes now hstatus hnew
  have hok := update_task_status_ok db tid s reqNotes aid now t a htask hagent
  have hkey : (applyStatusUpdate t s reqNotes now).id = tid := by
    rw [applyStatusUpdate_id]
    exact dbGetTask_key db tid t htask
  refine ⟨by rw [hok]; rfl, h1, h2, ?_⟩
  rw [hok]
  show some (dbGetTask _ tid) = _
  have hfind : dbGetTask db tid = some t := htask
  unfold dbGetTask at hfind ⊢
  rw [replaceTask_find? db.tasks tid t _ hfind hkey]

/-- C1 witness: agent "a2" (not the lock holder "a1") moves task 1 from
`under_work` to `dev_done`; both lock fields end up null. -/
theorem C1_witness :
    dbGetTask dbTasks 1 = some lockedTask
    ∧ findAgent dbTasks "a2" = some agentA2
    ∧ lockedTask.status = TaskStatus.under_work
    ∧ TaskStatus.dev_done ≠ TaskStatus.under_work
    ∧ (resultTask (update_task_status dbTasks 1 TaskStatus.dev_done none "a2" 9)
          = some (applyStatusUpdate lockedTask TaskStatus.dev_done none 9)
      ∧ (applyStatusUpdate lockedTask TaskStatus.dev_done none 9).locked_by_id = none
      ∧ (applyStatusUpdate lockedTask TaskStatus.dev_done none 9).locked_at = none
      ∧ (resultTaskDb (update_task_status dbTasks 1 TaskStatus.dev_done none "a2" 9)).map
            (fun db2 => dbGetTask db2 1)
          = some (some (applyStatusUpdate lockedTask TaskStatus.dev_done none 9))) :=
  ⟨by decide, by decide, by decide, by decide,
   C1_leaving_under_work_clears_lock dbTasks 1 TaskStatus.dev_done none "a2" 9
     lockedTask agentA2 (by decide) (by decide) (by decide) (by decide)⟩

/-- C2 counterexample: in `dbTasks`, task 1 is locked and agent "ghost" is not
registered.  The claim says a request whose agent does not exist fails with
NotFound, but the code returns Conflict: the already-locked check runs before
the agent lookup. -/
theorem C2_counterexample :
    findAgent dbTasks "ghost" = none
    ∧ dbGetTask dbTasks 1 = some lockedTask
    ∧ lockedTask.locked_by_id = some 1
    ∧ lock_task dbTasks 1 "ghost" 5 = .error .conflict
    ∧ lock_task dbTasks 1 "ghost" 5 ≠ .error .notFound := by
  decide

/-- C2 (amended): `lock_task` fails NotFound (404) when the task does not
exist, or when the task exists unlocked and the requesting agent does not
exist; it fails Conflict (409) whenever the task already has a truthy
`locked_by_id` — regardless of whether the requesting agent exists, since the
lock check precedes the agent lookup; otherwise it sets `locked_by_id` to the
requesting agent's id and `locked_at` to now. -/
theorem C2_amended_lock_task_outcomes
    (db : Db) (tid : Nat) (aid : String) (now : Nat) :
    (dbGetTask db tid = none → lock_task db tid aid now = .error .notFound)
    ∧ (∀ t, dbGetTask db tid = some t → intOptTruthy t.locked_by_id = true →
        lock_task db tid aid now = .error .conflict)
    ∧ (∀ t, dbGetTask db tid = some t → intOptTruthy t.locked_by_id = false →
        findAgent db aid = none → lock_task db tid aid now = .error .notFound)
    ∧ (∀ t a, dbGetTask db tid = some t → intOptTruthy t.locked_by_id = false →
        findAgent db aid = some a →
        lock_task db tid aid now =
          .ok ({ db with tasks := replaceTask db.tasks (lockedVersion t a.id now) },
               lockedVersion t a.id now))
    ∧ ApiError.notFound.statusCode = 404
    ∧ ApiError.conflict.statusCode = 409 := by
  refine ⟨?_, ?_, ?_, ?_, rfl, rfl⟩
  · intro h
    unfold lock_task
    rw [h]
  · intro t ht hl
    unfold lock_task
    rw [ht]
    simp [hl]
  · intro t ht hl ha
    unfold lock_task
    rw [ht]
    simp [hl, ha]
  · intro t a ht hl ha
    unfold lock_task
    rw [ht]
    simp [hl, ha]

/-- C2 witness: all four amended outcomes at concrete inputs over `dbTasks`:
missing task 99 → 404; locked task 1 → 409; unlocked task 4 with unregistered
agent → 404; unlocked task 4 with agent "a1" → lock acquired at time 5. -/
theorem C2_witness :
    lock_task dbTasks 99 "a1" 5 = .error .notFound
    ∧ lock_task dbTasks 1 "a1" 5 = .error .conflict
    ∧ lock_task dbTasks 4 "ghost" 5 = .error .notFound
    ∧ lock_task dbTasks 4 "a1" 5 =
        .ok ({ dbTasks with tasks := replaceTask dbTasks.tasks (lockedVersion freshTask 1 5) },
             lockedVersion freshTask 1 5) :=
  ⟨(C2_amended_lock_task_outcomes dbTasks 99 "a1" 5).1 (by decide),
   (C2_amended_lock_task_outcomes dbTasks 1 "a1" 5).2.1 lockedTask
     (by decide) (by decide),
   (C2_amended_lock_task_outcomes dbTasks 4 "ghost" 5).2.2.1 freshTask
     (by decide) (by decide) (by decide),
   (C2_amended_lock_task_outcomes dbTasks 4 "a1" 5).2.2.2.1 freshTask agentA1
     (by decide) (by decide) (by decide)⟩

/-- C3: every successful task status update appends exactly one `Changelog`
row, whose `old_status` is the task's status before the update, whose
`new_status` is the requested status, whose `changed_by` is the acting agent's
id, and whose `notes` are the request's optional notes. -/
theorem C3_status_update_appends_one_changelog
    (db : Db) (tid : Nat) (s : TaskStatus) (reqNotes : Option String)
    (aid : String) (now : Nat) (t : Task) (a : Agent)
    (htask : dbGetTask db tid = some t)
    (hagent : findAgent db aid = some a) :
    resultChangelogs (update_task_status db tid s reqNotes aid now)
      = some (db.changelogs ++
          [{ task_id := t.id, old_status := t.status, new_status := s,
             changed_by := aid, notes := reqNotes, changed_at := now }]) := by
  rw [update_task_status_ok db tid s reqNotes aid now t a htask hagent]
  rfl

/-- C3 witness: agent "a1" moves task 4 from `created` to `under_work` with
notes "n"; the changelog table gains exactly that one row. -/
theorem C3_witness :
    dbGetTask dbTasks 4 = some freshTask
    ∧ findAgent dbTasks "a1" = some agentA1
    ∧ resultChangelogs (update_task_status dbTasks 4 TaskStatus.under_work (some "n") "a1" 7)
        = some [{ task_id := 4, old_status := TaskStatus.created,
                  new_status := TaskStatus.under_work, changed_by := "a1",
                  notes := some "n", changed_at := 7 }] :=
  ⟨by decide, by decide,
   C3_status_update_appends_one_changelog dbTasks 4 TaskStatus.under_work
     (some "n") "a1" 7 freshTask agentA1 (by decide) (by decide)⟩

/-- C4 counterexample: task 1's notes are "old"; a status update providing
notes "new" leaves the notes field equal to "new" — the prior content is
discarded, not preserved.  Had the code appended the provided notes onto the
prior notes, the result would keep "old" as a prefix
(`stringStartsWith_append`), but `stringStartsWith "old" "new" = false`. -/
theorem C4_counterexample :
    dbGetTask dbTasks 1 = some lockedTask
    ∧ lockedTask.notes = some "old"
    ∧ (resultTask (update_task_status dbTasks 1 TaskStatus.dev_done (some "new") "a1" 9)).map
        Task.notes = some (some "new")
    ∧ stringStartsWith "old" "new" = false := by
  decide

/-- C4 (amended): a status update whose request carries truthy (non-empty)
notes *replaces* the task's notes field with exactly the provided notes,
discarding any prior content; when the notes are absent (or empty, which
Python truthiness treats the same), the notes field is unchanged. -/
theorem C4_amended_notes_replaced
    (db : Db) (tid : Nat) (s : TaskStatus) (reqNotes : Option String)
    (aid : String) (now : Nat) (t : Task) (a : Agent)
    (htask : dbGetTask db tid = some t)
    (hagent : findAgent db aid = some a) :
    resultTask (update_task_status db tid s reqNotes aid now)
        = some (applyStatusUpdate t s reqNotes now)
    ∧ (strOptTruthy reqNotes = true →
        (applyStatusUpdate t s reqNotes now).notes = reqNotes)
    ∧ (strOptTruthy reqNotes = false →
        (applyStatusUpdate t s reqNotes now).notes = t.notes) := by
  refine ⟨?_, ?_, ?_⟩
  · rw [update_task_status_ok db tid s reqNotes aid now t a htask hagent]
    rfl
  · intro h
    rw [applyStatusUpdate_notes, if_pos h]
  · intro h
    rw [applyStatusUpdate_notes, if_neg (by simp [h])]

/-- C4 witness: with prior notes "old", providing notes "new" yields notes
"new"; providing no notes leaves notes "old". -/
theorem C4_witness :
    (resultTask (update_task_status dbTasks 1 TaskStatus.dev_done (some "new") "a1" 9)).map
        Task.notes = some (some "new")
    ∧ (resultTask (update_task_status dbTasks 1 TaskStatus.dev_done none "a1" 9)).map
        Task.notes = some (some "old") := by
  have h1 := C4_amended_notes_replaced dbTasks 1 TaskStatus.dev_done (some "new")
    "a1" 9 lockedTask agentA1 (by decide) (by decide)
  have h2 := C4_amended_notes_replaced dbTasks 1 TaskStatus.dev_done none
    "a1" 9 lockedTask agentA1 (by decide) (by decide)
  constructor
  · rw [h1.1]
    simp [h1.2.1 (by decide)]
  · rw [h2.1]
    simp [h2.2.2 (by decide)]
    decide

/-- C10: for every task that exists and already has a non-null (nonzero — row
ids produced by the database are ≥ 1) `locked_by_id`, a lock request quoting an
agent id that is not registered returns Conflict (409), not NotFound (404):
the already-locked check precedes the agent-existence check. -/
theorem C10_locked_conflict_precedes_agent_check
    (db : Db) (tid : Nat) (aid : String) (now : Nat) (t : Task) (lid : Nat)
    (htask : dbGetTask db tid = some t)
    (hlock : t.locked_by_id = some lid)
    (hlid : lid ≠ 0)
    (_hagent : findAgent db aid = none) :
    lock_task db tid aid now = .error .conflict
    ∧ lock_task db tid aid now ≠ .error .notFound
    ∧ ApiError.conflict.statusCode = 409 := by
  have hl : intOptTruthy t.locked_by_id = true := by
    rw [hlock]
    simpa [intOptTruthy] using hlid
  have hc : lock_task db tid aid now = .error .conflict := by
    unfold lock_task
    rw [htask]
    simp [hl]
  exact ⟨hc, by rw [hc]; decide, rfl⟩

/-- C10 witness: task 1 is locked (holder id 1) and "ghost" is unregistered;
the lock request returns Conflict 409, not NotFound. -/
theorem C10_witness :
    dbGetTask dbTasks 1 = some lockedTask
    ∧ lockedTask.locked_by_id = some 1
    ∧ findAgent dbTasks "ghost" = none
    ∧ (lock_task dbTasks 1 "ghost" 5 = .error .conflict
       ∧ lock_task dbTasks 1 "ghost" 5 ≠ .error .notFound
       ∧ ApiError.conflict.statusCode = 409) :=
  ⟨by decide, by decide, by decide,
   C10_locked_conflict_precedes_agent_check dbTasks 1 "ghost" 5 lockedTask 1
     (by decide) (by decide) (by decide) (by decide)⟩

/-- Sample rows for the document, service and mention claims. -/
def baseDoc : Document :=
  { id := 1, doc_type := .standup, author_id := "a1", title := "T",
    content := "c", meta_data := none, expires_at := none,
    created_at := 0, updated_at := 0 }

def emptyDb : Db :=
  { agents := [], tasks := [], changelogs := [], documents := [],
    mentions := [], services := [] }

def dbDocs : Db :=
  { agents := [agentA1], tasks := [], changelogs := [], documents := [baseDoc],
    mentions := [], services := [] }

/-- 50,001 'x' characters: one over the content limit. -/
def longContent : String := String.mk (List.replicate 50001 'x')

/-- Exactly 50,000 'x' characters: at the content limit. -/
def maxContent : String := String.mk (List.replicate 50000 'x')

/-- C5: document creation validates `len(content) > 50000` before any row is
constructed or inserted, so content strictly longer than 50,000 characters
fails with InvalidInput (400) and — the exception being raised before the
insert and commit — no document row is persisted (the error case produces no
store at all); content of length ≤ 50,000, in particular exactly 50,000,
passes the check and is persisted unchanged. -/
theorem C5_create_document_length_limit
    (db : Db) (dt : DocumentType) (title content : String)
    (meta : Option String) (expires : Option Nat) (author : String) (now : Nat) :
    (50000 < content.length →
       create_document db dt title content meta expires author now = .error .invalidInput
       ∧ ApiError.invalidInput.statusCode = 400)
    ∧ (content.length ≤ 50000 →
       create_document db dt title content meta expires author now =
         .ok ({ db with documents := db.documents ++ [newDocument db dt author title content meta expires now] },
              newDocument db dt author title content meta expires now)) := by
  constructor
  · intro h
    refine ⟨?_, rfl⟩
    unfold create_document
    rw [if_pos h]
  · intro h
    unfold create_document
    rw [if_neg (by omega)]

/-- C5 witness: on an empty store, 50,001 characters are rejected with
InvalidInput 400 and 50,000 characters are accepted and stored. -/
theorem C5_witness :
    50000 < longContent.length
    ∧ create_document emptyDb DocumentType.update "T" longContent none none "a1" 3 = .error .invalidInput
    ∧ maxContent.length ≤ 50000
    ∧ create_document emptyDb DocumentType.update "T" maxContent none none "a1" 3 =
        .ok ({ emptyDb with documents := [newDocument emptyDb DocumentType.update "a1" "T" maxContent none none 3] },
             newDocument emptyDb DocumentType.update "a1" "T" maxContent none none 3) := by
  have hlong : longContent.length = 50001 := by
    show (List.replicate 50001 'x').length = 50001
    rw [List.length_replicate]
  have hmax : maxContent.length = 50000 := by
    show (List.replicate 50000 'x').length = 50000
    rw [List.length_replicate]
  refine ⟨by omega, ?_, by omega, ?_⟩
  · exact ((C5_create_document_length_limit emptyDb DocumentType.update "T"
      longContent none none "a1" 3).1 (by omega)).1
  · exact (C5_create_document_length_limit emptyDb DocumentType.update "T"
      maxContent none none "a1" 3).2 (by omega)

/-- C9: `update_document` performs no content-length validation: for every
existing document and every replacement content string — no bound on
`content.length` appears in the hypotheses, and the witness exercises 50,001
characters — the update succeeds and persists exactly the new content
(stamping `updated_at`); the 50,000-character limit appears only in
`create_document` (C5). -/
theorem C9_update_document_unbounded_content
    (db : Db) (did : Nat) (d : Document) (content : String) (now : Nat)
    (hd : dbGetDocument db did = some d) :
    update_document db did none (some content) none now =
      .ok ({ db with documents := replaceDocument db.documents (contentVersion d content now) },
           contentVersion d content now)
    ∧ (contentVersion d content now).content = content := by
  constructor
  · unfold update_document
    rw [hd]
    rfl
  · rfl

/-- C9 witness: replacing the stored document's content with 50,001 characters
succeeds and persists that content. -/
theorem C9_witness :
    dbGetDocument dbDocs 1 = some baseDoc
    ∧ 50000 < longContent.length
    ∧ update_document dbDocs 1 none (some longContent) none 7 =
        .ok ({ dbDocs with documents := replaceDocument dbDocs.documents (contentVersion baseDoc longContent 7) },
             contentVersion baseDoc longContent 7)
    ∧ (contentVersion baseDoc longContent 7).content = longContent := by
  have h := C9_update_document_unbounded_content dbDocs 1 baseDoc longContent 7 (by decide)
  have hlong : longContent.length = 50001 := by
    show (List.replicate 50001 'x').length = 50001
    rw [List.length_replicate]
  exact ⟨by decide, by omega, h.1, h.2⟩

/-- A registered service owned by "a1", currently recorded as `down`. -/
def downService : Service :=
  { id := 1, service_name := "svc", owner_agent_id := "a1",
    ping_url := "http://localhost/ping", port := some 80, status := .down,
    last_heartbeat := some 1, meta_data := none, updated_at := 0 }

def dbServices : Db :=
  { agents := [agentA1, agentA2], tasks := [], changelogs := [],
    documents := [], mentions := [], services := [downService] }

/-- C6: a heartbeat for an existing service from an agent other than the
stored `owner_agent_id` fails with Forbidden (403); the exception is raised
before any field is touched and before any commit, so `last_heartbeat` is
unchanged (the error case produces no store).  A heartbeat from the owner
refreshes `last_heartbeat` and `updated_at` to now and always leaves the
status `up`, whatever it was before (the witness starts from `down`). -/
theorem C6_service_heartbeat_ownership_and_up
    (db : Db) (name aid : String) (now : Nat) (s : Service)
    (hs : findService db name = some s) :
    (s.owner_agent_id ≠ aid →
       service_heartbeat db name aid now = .error .forbidden
       ∧ ApiError.forbidden.statusCode = 403)
    ∧ (s.owner_agent_id = aid →
       service_heartbeat db name aid now =
         .ok ({ db with services := replaceService db.services (heartbeatVersion s now) },
              heartbeatVersion s now)
       ∧ (heartbeatVersion s now).last_heartbeat = some now
       ∧ (heartbeatVersion s now).updated_at = now
       ∧ (heartbeatVersion s now).status = ServiceStatus.up) := by
  constructor
  · intro h
    refine ⟨?_, rfl⟩
    unfold service_heartbeat
    rw [hs]
    simp [h]
  · intro h
    refine ⟨?_, ?_, ?_, ?_⟩
    · unfold service_heartbeat
      rw [hs]
      simp [h]
    · simp only [heartbeatVersion]
      split <;> rfl
    · simp only [heartbeatVersion]
      split <;> rfl
    · simp only [heartbeatVersion]
      split
      · rfl
      · next hcond =>
          simp only [ne_eq, not_not] at hcond
          exact hcond

/-- C6 witness: non-owner "a2" gets Forbidden 403; owner "a1" refreshes the
heartbeat of the `down` service and its status becomes `up`. -/
theorem C6_witness :
    findService dbServices "svc" = some downService
    ∧ downService.status = ServiceStatus.down
    ∧ downService.owner_agent_id ≠ "a2"
    ∧ (service_heartbeat dbServices "svc" "a2" 9 = .error .forbidden
       ∧ ApiError.forbidden.statusCode = 403)
    ∧ (service_heartbeat dbServices "svc" "a1" 9 =
         .ok ({ dbServices with services := replaceService dbServices.services (heartbeatVersion downService 9) },
              heartbeatVersion downService 9)
       ∧ (heartbeatVersion downService 9).last_heartbeat = some 9
       ∧ (heartbeatVersion downService 9).updated_at = 9
       ∧ (heartbeatVersion downService 9).status = ServiceStatus.up) :=
  ⟨by decide, by decide, by decide,
   (C6_service_heartbeat_ownership_and_up dbServices "svc" "a2" 9 downService
      (by decide)).1 (by decide),
   (C6_service_heartbeat_ownership_and_up dbServices "svc" "a1" 9 downService
      (by decide)).2 (by decide)⟩

/-- An unread mention directed at agent "a1". -/
def pendingMention : Mention :=
  { id := 1, document_id := some 1, task_id := none, mentioned_agent_id := "a1",
    created_by := "a2", is_read := false, created_at := 0 }

def dbMentions : Db :=
  { agents := [agentA1, agentA2], tasks := [], changelogs := [],
    documents := [baseDoc], mentions := [pendingMention], services := [] }

/-- The store after committing `mention.is_read = True` for mention `m`. -/
def markedDb (db : Db) (m : Mention) : Db :=
  { db with mentions := replaceMention db.mentions (readVersion m) }

/-- The one-step reduction of a successful `mark_mention_read`. -/
theorem mark_mention_read_ok (db : Db) (mid : Nat) (aid : String) (m : Mention)
    (hm : dbGetMention db mid = some m) (howner : m.mentioned_agent_id = aid) :
    mark_mention_read db mid aid = .ok (markedDb db m, readVersion m) := by
  unfold mark_mention_read
  rw [hm]
  simp [howner, markedDb]

/-- C7: marking a mention read by an agent other than its `mentioned_agent_id`
fails with Forbidden (403); the exception precedes both the mutation and the
commit, so `is_read` is unchanged (the error case produces no store).  Marking
by the mentioned agent sets `is_read = true`; and the operation is idempotent:
run again on the resulting store it succeeds — not an error — returning the
same already-read row and leaving the store identical. -/
theorem C7_mark_mention_read_ownership_idempotent
    (db : Db) (mid : Nat) (aid : String) (m : Mention)
    (hm : dbGetMention db mid = some m) :
    (m.mentioned_agent_id ≠ aid →
       mark_mention_read db mid aid = .error .forbidden
       ∧ ApiError.forbidden.statusCode = 403)
    ∧ (m.mentioned_agent_id = aid →
       mark_mention_read db mid aid = .ok (markedDb db m, readVersion m)
       ∧ (readVersion m).is_read = true
       ∧ mark_mention_read (markedDb db m) mid aid
           = .ok (markedDb db m, readVersion m)) := by
  constructor
  · intro h
    refine ⟨?_, rfl⟩
    unfold mark_mention_read
    rw [hm]
    simp [h]
  · intro h
    have hid : (readVersion m).id = mid := by
      rw [show (readVersion m).id = m.id from rfl]
      exact dbGetMention_key db mid m hm
    have hm2 : db.mentions.find? (fun y => y.id == mid) = some m := hm
    have hfind2 : dbGetMention (markedDb db m) mid = some (readVersion m) := by
      unfold dbGetMention markedDb
      exact replaceMention_find? db.mentions mid m (readVersion m) hm2 hid
    refine ⟨mark_mention_read_ok db mid aid m hm h, rfl, ?_⟩
    have h2 := mark_mention_read_ok (markedDb db m) mid aid (readVersion m) hfind2
      (by simpa [readVersion] using h)
    rw [h2]
    have hidem : markedDb (markedDb db m) (readVersion m) = markedDb db m := by
      show Db.mk db.agents db.tasks db.changelogs db.documents
          (replaceMention (replaceMention db.mentions (readVersion m))
            (readVersion (readVersion m))) db.services = _
      rw [show readVersion (readVersion m) = readVersion m from rfl]
      rw [show replaceMention (replaceMention db.mentions (readVersion m)) (readVersion m)
            = replaceMention db.mentions (readVersion m) from by
        unfold replaceMention
        exact map_replace_idem Mention.id (readVersion m) db.mentions]
      rfl
    rw [hidem]
    rfl

/-- C7 witness: "a2" cannot mark mention 1 (directed at "a1") read — Forbidden
403; "a1" marks it read, and marking it again succeeds with the identical
already-read row and store. -/
theorem C7_witness :
    dbGetMention dbMentions 1 = some pendingMention
    ∧ pendingMention.mentioned_agent_id ≠ "a2"
    ∧ (mark_mention_read dbMentions 1 "a2" = .error .forbidden
       ∧ ApiError.forbidden.statusCode = 403)
    ∧ (mark_mention_read dbMentions 1 "a1"
         = .ok (markedDb dbMentions pendingMention, readVersion pendingMention)
       ∧ (readVersion pendingMention).is_read = true
       ∧ mark_mention_read (markedDb dbMentions pendingMention) 1 "a1"
           = .ok (markedDb dbMentions pendingMention, readVersion pendingMention)) :=
  ⟨by decide, by decide,
   (C7_mark_mention_read_ownership_idempotent dbMentions 1 "a2" pendingMention
      (by decide)).1 (by decide),
   (C7_mark_mention_read_ownership_idempotent dbMentions 1 "a1" pendingMention
      (by decide)).2 (by decide)⟩

/-- C8: the claim states the intended behavior of `get_enum_description`
(mapped label when the table covers the value, raw-string fallback otherwise,
totality over all members of the defined enumerations) — and over built tables
the embedded dispatch does fall back to `EnumValue.value` — but the code
cannot deliver it: loading src/src/models/enum_translations.py fails, because
the `DOCUMENT_TYPE_CN` and `SERVICE_STATUS_CN` literals reference member names
(first failing: `OBSERVATION`; also `DEGRADED`, `MAINTENANCE`, and 21 more)
that the `DocumentType` and `ServiceStatus` enumerations defined in
src/src/models/document_enums.py do not declare.  The attribute lookups raise
at import, so `get_enum_description` is unreachable in the program. -/
theorem C8_enum_translations_load_fails :
    loadEnumTranslationsModule = none
    ∧ buildEnumTable DocumentType.fromName documentTypeCnSource = none
    ∧ buildEnumTable ServiceStatus.fromName serviceStatusCnSource = none
    ∧ DocumentType.fromName "OBSERVATION" = none
    ∧ ServiceStatus.fromName "DEGRADED" = none
    ∧ (buildEnumTable TaskStatus.fromName taskStatusCnSource).isSome = true
    ∧ (∀ v : DocumentType,
        get_enum_description [] [] [] [] [] [] [] [] (EnumValue.documentType v)
          = v.value) := by
  refine ⟨by decide, by decide, by decide, rfl, rfl, by decide, ?_⟩
  intro v
  cases v <;> rfl

end HeadlessPm
